import Mathlib

/-!
Shallow embedding of the mpp_backend server (src/server.js): the user
registry and its REST handlers, JWT-based authentication with optional
TOTP second factor, the WebSocket broadcaster, the mutation log, and the
periodic anomaly detector over that log.

External collaborators are modelled as parameters:
* `bcrypt.compare` becomes an abstract `bcmp : String → Option String → Bool`
  (the stored column may be NULL, hence `Option String`);
* `speakeasy`'s TOTP code generator becomes `totp : String → Int → String`
  mapping a secret and a time-step counter to the code for that step;
  `speakeasy.totp.verify` with `window: 1` accepts a code iff it equals the
  code of the current step or of one step before or after.
MySQL tables become Lean lists; a `SELECT ... WHERE` is a `filter`/`find?`
over the list in storage order (so `results[0]` is `find?`).
-/

namespace MppBackend

/-- A row of the `users` table. Columns `password`, `two_factor_secret` and
`image` are nullable (`NULL` modelled as `none`). The registry role column
is named `type` in the schema. -/
structure User where
  id : Nat
  name : String
  email : String
  type : String
  image : Option String
  password : Option String
  two_factor_secret : Option String
  deriving DecidableEq, Repr

/-- A row of the `logs` table: `(user_id, action, entity, entity_id, timestamp)`.
`user_id` is nullable (requests without an `x-user-id` header log NULL). -/
structure LogEntry where
  user_id : Option Nat
  action : String
  entity : String
  entity_id : Nat
  timestamp : Nat
  deriving DecidableEq, Repr

/-- A row of the `monitored_users` table: `(user_id, reason, detected_at)`. -/
structure Flag where
  user_id : Nat
  reason : String
  detected_at : Nat
  deriving DecidableEq, Repr

/-- The JSON user object built by the create/update handlers:
`{id, name, email, type, image}` (no password, no second-factor secret). -/
structure UserOut where
  id : Nat
  name : String
  email : String
  type : String
  image : Option String
  deriving DecidableEq, Repr

/-- The envelope `broadcastUpdate` serializes to every open WebSocket client:
`{type, data, allUsers}`. `allUsers` carries the raw rows of
`SELECT * FROM users`, i.e. full `User` records. -/
structure Envelope where
  type : String
  data : Option UserOut
  allUsers : List User
  deriving DecidableEq, Repr

/-- A WebSocket client tracked by the server: whether its `readyState` is
`OPEN`, and the envelopes sent to it so far. -/
structure Observer where
  isOpen : Bool
  inbox : List Envelope
  deriving DecidableEq, Repr

/-- The server-side state the embedded handlers read and write: the three
tables, the auto-increment counter of `users.id`, and the WebSocket clients. -/
structure ServerState where
  users : List User
  logs : List LogEntry
  monitored : List Flag
  nextId : Nat
  observers : List Observer
  deriving DecidableEq, Repr

/-! ## Session tokens (jsonwebtoken) -/

/-- The claim set the server signs into a JWT: `{id, email}` from login, plus
`twoFactorVerified: true` added by `/2fa/verify` (absent = `false`). -/
structure Claims where
  id : Nat
  email : String
  twoFactorVerified : Bool
  deriving DecidableEq, Repr

/-- A signed token: its claim set, its `exp` epoch second, and whether its
signature verifies against `JWT_SECRET` (`sig = false` models a malformed
token or one signed with another key). -/
structure Token where
  claims : Claims
  exp : Nat
  sig : Bool
  deriving DecidableEq, Repr

/-- Call `jwt.sign(claims, JWT_SECRET, ..expiresIn ttl)` at time `now`. -/
def jwtSign (claims : Claims) (now ttl : Nat) : Token :=
  { claims := claims, exp := now + ttl, sig := true }

/-- Call `jwt.verify(token, JWT_SECRET)` at time `now`: the callback gets the
claims iff the signature is good and the token is not yet expired. -/
def jwtVerify (t : Token) (now : Nat) : Option Claims :=
  if t.sig ∧ now < t.exp then some t.claims else none

/-- Outcome of the `authenticateToken` middleware. -/
inductive AuthResult where
  | missing
  | invalid
  | ok (claims : Claims)
  deriving DecidableEq, Repr

/-- The `authenticateToken` middleware (src/server.js lines 15-30): no token
in the Authorization header → 401 `Access token required`; `jwt.verify`
failure → 403 `Invalid or expired token`; otherwise `req.user` is set to the
decoded claims and the handler runs. Note: the middleware never inspects the
`twoFactorVerified` claim. -/
def authenticateToken (tok : Option Token) (now : Nat) : AuthResult :=
  match tok with
  | none => .missing
  | some t =>
    match jwtVerify t now with
    | none => .invalid
    | some c => .ok c

/-! ## Broadcaster -/

/-- Function `broadcastUpdate(type, data)`: compute `allUsers` (fresh `SELECT *` after
the mutation) and send one envelope to every client whose `readyState` is
`OPEN`; closed clients are skipped. -/
def broadcastUpdate (etype : String) (data : Option UserOut) (allUsers : List User)
    (obs : List Observer) : List Observer :=
  obs.map fun o =>
    if o.isOpen then { o with inbox := o.inbox ++ [⟨etype, data, allUsers⟩] } else o

/-! ## Directory Service handlers -/

/-- Outcome of `POST /users` (after the validation middleware passed). -/
inductive CreateResult where
  | conflict
  | created (resp : UserOut)
  deriving DecidableEq, Repr

/-- Handler of `POST /users` (src/server.js lines 209-238), the body after
`validateUser`/`handleValidationErrors` passed. It pre-checks
`SELECT id FROM users WHERE email = ?`; on a hit it answers 400
`Email already exists` and does nothing else. Otherwise it runs
`INSERT INTO users (name, email, type)` (the other columns default to NULL),
broadcasts `USER_ADDED` with the fresh snapshot, and answers 201.
The handler appends nothing to the `logs` table. -/
def createUser (s : ServerState) (name email utype : String) :
    ServerState × CreateResult :=
  if (s.users.filter (fun u => u.email == email)).length > 0 then
    (s, .conflict)
  else
    let newRow : User :=
      { id := s.nextId, name := name, email := email, type := utype,
        image := none, password := none, two_factor_secret := none }
    let users' := s.users ++ [newRow]
    let resp : UserOut :=
      { id := s.nextId, name := name, email := email, type := utype, image := none }
    ({ s with
        users := users'
        nextId := s.nextId + 1
        observers := broadcastUpdate "USER_ADDED" (some resp) users' s.observers },
     .created resp)

/-- Outcome of `PATCH /users/:id` (after validation passed). -/
inductive UpdateResult where
  | conflict
  | notFound
  | updated (resp : UserOut)
  deriving DecidableEq, Repr

/-- Handler of `PATCH /users/:id` (src/server.js lines 241-282), after validation passed.
`actorId` is the `x-user-id` header (NULL when absent). The email pre-check
excludes the target id (`AND id != ?`). The `UPDATE` sets only `name`,
`email`, `type`; `affectedRows = 0` answers 404. On success one
`('update','user')` row is appended to `logs`, `USER_UPDATED` is broadcast,
and the response object carries `image: null` unconditionally. -/
def updateUser (s : ServerState) (actorId : Option Nat) (id : Nat)
    (name email utype : String) (now : Nat) : ServerState × UpdateResult :=
  if (s.users.filter (fun u => u.email == email && u.id != id)).length > 0 then
    (s, .conflict)
  else if (s.users.filter (fun u => u.id == id)).length = 0 then
    (s, .notFound)
  else
    let users' := s.users.map fun u =>
      if u.id == id then { u with name := name, email := email, type := utype } else u
    let logs' := s.logs ++
      [{ user_id := actorId, action := "update", entity := "user",
         entity_id := id, timestamp := now }]
    let resp : UserOut :=
      { id := id, name := name, email := email, type := utype, image := none }
    ({ s with
        users := users'
        logs := logs'
        observers := broadcastUpdate "USER_UPDATED" (some resp) users' s.observers },
     .updated resp)

/-! ## Authentication endpoints -/

/-- The `user` object serialized by a successful password-only login:
`{id, email, name, type}` — nothing else. -/
structure LoginUserView where
  id : Nat
  email : String
  name : String
  type : String
  deriving DecidableEq, Repr

/-- Outcome of `POST /login`. -/
inductive LoginResult where
  | invalidCredentials
  | challenge (tempToken : Token)
  | granted (accessToken : Token) (user : LoginUserView)
  deriving DecidableEq, Repr

/-- Handler of `POST /login` (src/server.js lines 436-497). `SELECT * FROM users WHERE
email = ?`, take `results[0]`; no row or `bcrypt.compare` failure → 401
`Invalid credentials`. If `two_factor_secret` is set, sign `{id, email}` for
5 minutes and answer `{requiresTwoFactor: true, tempToken}`. Otherwise sign
`{id, email}` for 1 hour and answer the token plus the public profile. -/
def login (bcmp : String → Option String → Bool) (s : ServerState)
    (email password : String) (now : Nat) : LoginResult :=
  match s.users.find? (fun u => u.email == email) with
  | none => .invalidCredentials
  | some user =>
    if bcmp password user.password then
      match user.two_factor_secret with
      | some _ =>
        .challenge (jwtSign { id := user.id, email := user.email, twoFactorVerified := false } now 300)
      | none =>
        .granted (jwtSign { id := user.id, email := user.email, twoFactorVerified := false } now 3600)
          { id := user.id, email := user.email, name := user.name, type := user.type }
    else .invalidCredentials

/-- Call `speakeasy.totp.verify` with window 1 at time-step `step`:
accepted iff the submitted code equals the code of step `step - 1`, `step`
or `step + 1`. -/
def totpCheck (totp : String → Int → String) (secret code : String) (step : Int) : Bool :=
  code == totp secret (step - 1) || code == totp secret step || code == totp secret (step + 1)

/-- Outcome of `POST /2fa/verify` (including the `authenticateToken` guard). -/
inductive VerifyTwoFaResult where
  | authMissing
  | authInvalid
  | lookupFailed
  | invalidCode
  | verified (accessToken : Token)
  deriving DecidableEq, Repr

/-- Handler of `POST /2fa/verify` (src/server.js lines 534-573), behind
`authenticateToken`. The handler reads `two_factor_secret` for the
authenticated id (no row → 500) and checks the code with window 1. On
success it signs `{...req.user, twoFactorVerified: true}` with `exp`
removed and a fresh 1-hour expiry; otherwise 401 `Invalid 2FA token`.
A row whose secret is NULL makes the speakeasy call throw, surfaced as a
server failure (`lookupFailed`). -/
def verifyTwoFa (totp : String → Int → String) (s : ServerState)
    (tok : Option Token) (code : String) (step : Int) (now : Nat) : VerifyTwoFaResult :=
  match authenticateToken tok now with
  | .missing => .authMissing
  | .invalid => .authInvalid
  | .ok reqUser =>
    match s.users.find? (fun u => u.id == reqUser.id) with
    | none => .lookupFailed
    | some u =>
      match u.two_factor_secret with
      | none => .lookupFailed
      | some secret =>
        if totpCheck totp secret code step then
          .verified (jwtSign { reqUser with twoFactorVerified := true } now 3600)
        else .invalidCode

/-- The row `GET /users/me` serializes: `SELECT id, name, email, type`. -/
structure MeView where
  id : Nat
  name : String
  email : String
  type : String
  deriving DecidableEq, Repr

/-- Outcome of `GET /users/me` (including the `authenticateToken` guard). -/
inductive MeResult where
  | authErr (status : Nat) (msg : String)
  | notFound
  | ok (u : MeView)
  deriving DecidableEq, Repr

/-- Handler of `GET /users/me` (src/server.js lines 576-584), behind
`authenticateToken`: rejections happen in the middleware before the handler
touches the database; otherwise the profile of the authenticated id is
returned (no row → 404). -/
def usersMe (s : ServerState) (tok : Option Token) (now : Nat) : MeResult :=
  match authenticateToken tok now with
  | .missing => .authErr 401 "Access token required"
  | .invalid => .authErr 403 "Invalid or expired token"
  | .ok c =>
    match s.users.find? (fun u => u.id == c.id) with
    | none => .notFound
    | some u => .ok { id := u.id, name := u.name, email := u.email, type := u.type }

/-! ## Anomaly detector (src/server.js lines 588-612) -/

/-- Condition `timestamp > (NOW() - INTERVAL 2 MINUTE)` at time `now`, written without
truncated subtraction: `t > now - 120  ↔  now < t + 120`. -/
def inWindow (now t : Nat) : Bool :=
  now < t + 120

/-- The per-actor `COUNT(*)` of the detector query: rows of `logs` whose
`user_id` equals this (non-NULL) actor and whose timestamp lies in the
trailing 2-minute window. -/
def actorCount (logs : List LogEntry) (uid : Nat) (now : Nat) : Nat :=
  (logs.filter fun e => e.user_id == some uid && inWindow now e.timestamp).length

/-- The `HAVING action_count > 10` filter together with
`user_id IS NOT NULL AND user_id != 0`. -/
def qualifies (logs : List LogEntry) (now : Nat) (uid : Nat) : Bool :=
  uid != 0 && 10 < actorCount logs uid now

/-- The distinct non-NULL actor ids of the log — the groups `GROUP BY
user_id` can produce. -/
def distinctActors (logs : List LogEntry) : List Nat :=
  (logs.filterMap fun e => e.user_id).dedup

/-- The reason text the detector writes:
`` `High frequency: ${row.action_count} actions in 2 min` ``. -/
def reasonText (n : Nat) : String :=
  "High frequency: " ++ toString n ++ " actions in 2 min"

/-- Modelled from the spec: the `monitored_users` schema is not in src (only
the `users` ALTER script is), so the key `INSERT IGNORE` deduplicates on is
taken from the spec's idempotent insertion of Monitoring Flags and the code
comment "Add to monitored_users if not already present": the row is dropped
when a flag for the same `user_id` already exists. -/
def insertIgnoreMonitored (m : List Flag) (uid : Nat) (reason : String) (now : Nat) :
    List Flag :=
  if m.any (fun f => f.user_id == uid) then m
  else m ++ [{ user_id := uid, reason := reason, detected_at := now }]

/-- One tick of the background monitoring interval: run the grouped query
over `logs`, then `INSERT IGNORE` one flag per qualifying actor. -/
def detectorRun (logs : List LogEntry) (m : List Flag) (now : Nat) : List Flag :=
  ((distinctActors logs).filter (qualifies logs now)).foldl
    (fun acc uid => insertIgnoreMonitored acc uid (reasonText (actorCount logs uid now)) now)
    m

/-- Whether `monitored_users` holds a flag for this actor. -/
def hasFlag (m : List Flag) (uid : Nat) : Bool :=
  m.any fun f => f.user_id == uid

/-- How many flags `monitored_users` holds for this actor. -/
def flagCount (m : List Flag) (uid : Nat) : Nat :=
  (m.filter fun f => f.user_id == uid).length

/-! ## Concrete fixtures used by witnesses and counterexamples -/

/-- A registered user enrolled in the second factor, with an avatar. -/
def annUser : User :=
  { id := 1, name := "Ann", email := "a@b.c", type := "user",
    image := some "pic.png", password := some "HASH", two_factor_secret := some "SEC" }

/-- A registered user with a password but no second factor. -/
def bobUser : User :=
  { id := 2, name := "Bob", email := "b@b.c", type := "admin",
    image := none, password := some "BH", two_factor_secret := none }

/-- A small server state: two users, empty log, one open WebSocket client. -/
def baseState : ServerState :=
  { users := [annUser, bobUser], logs := [], monitored := [], nextId := 3,
    observers := [⟨true, []⟩] }

/-- Like `baseState` but Ann's password hash is different; nothing else differs. -/
def baseStateH2 : ServerState :=
  { baseState with users := [{ annUser with password := some "HASH2" }, bobUser] }

/-- A concrete instance of the abstract `bcrypt.compare`: the demo passwords
`pw` and `bw` match Ann's and Bob's stored hashes respectively. -/
def checkPw : String → Option String → Bool :=
  fun p h => p == "pw" && h == some "HASH" || p == "bw" && h == some "BH"

/-- A concrete instance of the abstract TOTP code generator. -/
def totpDemo : String → Int → String :=
  fun sec st => sec ++ toString st

/-- Eleven log rows by actor 7 inside the 2-minute window before time 150. -/
def logsEleven : List LogEntry :=
  (List.range 11).map fun i =>
    { user_id := some 7, action := "update", entity := "user", entity_id := 1,
      timestamp := 100 + i }

/-- Ten log rows by actor 7 inside the 2-minute window before time 150. -/
def logsTen : List LogEntry :=
  (List.range 10).map fun i =>
    { user_id := some 7, action := "update", entity := "user", entity_id := 1,
      timestamp := 100 + i }

/-! ## Claim theorems -/

/-- C1: the claim says a pending token (issued after password success for a
two-factor-enrolled user, claims lacking the verified flag) is rejected by
every endpoint requiring verified access, even before its expiry. The code
violates this: `authenticateToken` checks only signature and expiry and never
the `twoFactorVerified` claim, so `GET /users/me` — the endpoint the source
reserves for after the second factor — accepts the pending token that
`POST /login` hands out for the enrolled user Ann, well before the token's
5-minute expiry, and serves her profile. -/
theorem c1_pending_token_accepted_at_users_me :
    login checkPw baseState "a@b.c" "pw" 1000 =
      .challenge ⟨⟨1, "a@b.c", false⟩, 1300, true⟩ ∧
    (⟨⟨1, "a@b.c", false⟩, 1300, true⟩ : Token).claims.twoFactorVerified = false ∧
    1100 < (⟨⟨1, "a@b.c", false⟩, 1300, true⟩ : Token).exp ∧
    usersMe baseState (some ⟨⟨1, "a@b.c", false⟩, 1300, true⟩) 1100 =
      .ok ⟨1, "Ann", "a@b.c", "user"⟩ := by
  decide

/-- C2: the claim says every broadcast envelope's `allUsers` snapshot excludes
password hashes and second-factor secrets, equivalently that changing only a
user's hash or secret never changes any delivered envelope. The code violates
this: `getAllUsers` runs `SELECT * FROM users` and `broadcastUpdate` sends the
raw rows, so the envelope delivered for a create carries Ann's `HASH` and
`SEC` and Bob's `BH`, and changing only Ann's stored hash changes the
delivered envelopes. -/
theorem c2_broadcast_envelopes_carry_hash_and_secret :
    ((createUser baseState "Carl" "c@b.c" "user").1.observers.map
        fun o => o.inbox.map fun env => env.allUsers.map User.password) =
      [[[some "HASH", some "BH", none]]] ∧
    ((createUser baseState "Carl" "c@b.c" "user").1.observers.map
        fun o => o.inbox.map fun env => env.allUsers.map User.two_factor_secret) =
      [[[some "SEC", none, none]]] ∧
    baseStateH2 =
      { baseState with users := [{ annUser with password := some "HASH2" }, bobUser] } ∧
    (createUser baseState "Carl" "c@b.c" "user").1.observers ≠
      (createUser baseStateH2 "Carl" "c@b.c" "user").1.observers := by
  decide

/-- C3 counterexample: the claim says a valid create with a unique email
appends exactly one Mutation Log event with action `create`. At the concrete
state `baseState`, the create request `(Carl, c@b.c, user)` has a unique
email and is persisted (201 with the new row appended), yet the `logs` table
stays empty: the `POST /users` handler never inserts into `logs`, so the
number of `create` events is 0, not 1. -/
theorem c3_create_appends_no_log_event :
    (createUser baseState "Carl" "c@b.c" "user").2 =
      .created ⟨3, "Carl", "c@b.c", "user", none⟩ ∧
    (createUser baseState "Carl" "c@b.c" "user").1.users =
      baseState.users ++
        [⟨3, "Carl", "c@b.c", "user", none, none, none⟩] ∧
    ¬ (((createUser baseState "Carl" "c@b.c" "user").1.logs.filter
          fun e => e.action == "create").length = 1) := by
  decide

/-- C7 counterexample: the claim says missing, invalid and expired tokens are
all rejected with one uniform unauthorized error. The code uses two distinct
errors: a missing token gets 401 `Access token required` while an invalid or
expired one gets 403 `Invalid or expired token`, so the rejection of a
missing token differs from the rejection of an expired token. -/
theorem c7_rejection_errors_not_uniform :
    usersMe baseState none 0 = .authErr 401 "Access token required" ∧
    usersMe baseState (some ⟨⟨1, "a@b.c", false⟩, 10, true⟩) 20 =
      .authErr 403 "Invalid or expired token" ∧
    usersMe baseState none 0 ≠
      usersMe baseState (some ⟨⟨1, "a@b.c", false⟩, 10, true⟩) 20 := by
  decide

/-- C4: a create or update whose email equals the email of a different
existing entry is rejected with the duplicate-email conflict, and on that
rejection the returned state is exactly the input state: registry, mutation
log and observer inboxes are all unchanged, so no log event is appended and
no broadcast is sent. (On update the pre-check excludes the target id, so an
entry keeping its own email is not in conflict with itself.) -/
theorem c4_duplicate_email_rejected (s : ServerState) (actor : Option Nat) (id : Nat)
    (n e t : String) (now : Nat) :
    ((∃ u ∈ s.users, u.email = e) → createUser s n e t = (s, .conflict)) ∧
    ((∃ u ∈ s.users, u.email = e ∧ u.id ≠ id) →
      updateUser s actor id n e t now = (s, .conflict)) := by
  constructor
  · rintro ⟨u, hu, he⟩
    have hmem : u ∈ s.users.filter (fun x => x.email == e) :=
      List.mem_filter.mpr ⟨hu, by simp [he]⟩
    have hpos : (s.users.filter (fun x => x.email == e)).length > 0 :=
      List.length_pos.mpr (List.ne_nil_of_mem hmem)
    simp [createUser, hpos]
  · rintro ⟨u, hu, he, hne⟩
    have hmem : u ∈ s.users.filter (fun x => x.email == e && x.id != id) :=
      List.mem_filter.mpr ⟨hu, by simp [he, hne]⟩
    have hpos : (s.users.filter (fun x => x.email == e && x.id != id)).length > 0 :=
      List.length_pos.mpr (List.ne_nil_of_mem hmem)
    simp [updateUser, hpos]

/-- C4 witness: creating a third user with Ann's email and pointing an update
of Bob at Ann's email are both rejected with the state unchanged. -/
theorem c4_duplicate_email_rejected_witness :
    createUser baseState "X" "a@b.c" "user" = (baseState, .conflict) ∧
    updateUser baseState (some 9) 2 "Bob" "a@b.c" "admin" 5 = (baseState, .conflict) := by
  refine ⟨(c4_duplicate_email_rejected baseState (some 9) 2 "X" "a@b.c" "user" 5).1
            ⟨annUser, by decide, rfl⟩,
          (c4_duplicate_email_rejected baseState (some 9) 2 "Bob" "a@b.c" "admin" 5).2
            ⟨annUser, by decide, rfl, by decide⟩⟩

/-- C5: the login contract. If no stored user has the email, or the first
user with that email fails the password-hash comparison, login answers the
invalid-credentials error. If the matched user has no second-factor secret,
login answers a 1-hour token over `(id, email)` together with a public
profile made of exactly id, email, name and role — `LoginUserView` has no
password-hash and no second-factor-secret component, so neither is ever
serialized. If the user is enrolled, login answers only the challenge
indication with a 5-minute pending token. -/
theorem c5_login_contract (bcmp : String → Option String → Bool) (s : ServerState)
    (email pw : String) (now : Nat) :
    ((∀ u ∈ s.users, u.email ≠ email) → login bcmp s email pw now = .invalidCredentials) ∧
    (∀ u, s.users.find? (fun x => x.email == email) = some u →
      (bcmp pw u.password = false → login bcmp s email pw now = .invalidCredentials) ∧
      (bcmp pw u.password = true → u.two_factor_secret = none →
        login bcmp s email pw now =
          .granted ⟨⟨u.id, u.email, false⟩, now + 3600, true⟩
            ⟨u.id, u.email, u.name, u.type⟩) ∧
      (∀ sec, bcmp pw u.password = true → u.two_factor_secret = some sec →
        login bcmp s email pw now =
          .challenge ⟨⟨u.id, u.email, false⟩, now + 300, true⟩)) := by
  constructor
  · intro h
    have hn : s.users.find? (fun x => x.email == email) = none :=
      List.find?_eq_none.mpr (fun x hx => by simp [h x hx])
    simp [login, hn]
  · intro u hu
    refine ⟨?_, ?_, ?_⟩
    · intro hb; simp [login, hu, hb]
    · intro hb hsec; simp [login, hu, hb, hsec, jwtSign]
    · intro sec hb hsec; simp [login, hu, hb, hsec, jwtSign]

/-- C5 witness: against the demo hash checker, a wrong password is rejected,
Bob (no second factor) gets a 1-hour token plus his public profile, and Ann
(enrolled) gets only the 5-minute challenge token. -/
theorem c5_login_contract_witness :
    login checkPw baseState "a@b.c" "wrong" 7 = .invalidCredentials ∧
    login checkPw baseState "b@b.c" "bw" 7 =
      .granted ⟨⟨2, "b@b.c", false⟩, 3607, true⟩ ⟨2, "b@b.c", "Bob", "admin"⟩ ∧
    login checkPw baseState "a@b.c" "pw" 7 =
      .challenge ⟨⟨1, "a@b.c", false⟩, 307, true⟩ := by
  refine ⟨((c5_login_contract checkPw baseState "a@b.c" "wrong" 7).2 annUser rfl).1
            (by decide),
          ((c5_login_contract checkPw baseState "b@b.c" "bw" 7).2 bobUser rfl).2.1
            (by decide) rfl,
          ((c5_login_contract checkPw baseState "a@b.c" "pw" 7).2 annUser rfl).2.2 "SEC"
            (by decide) rfl⟩

/-- C7 (amended): the guard runs before any business logic — when the token
is missing the guarded endpoints answer 401 `Access token required`, and when
it is invalid or expired they answer 403 `Invalid or expired token` (two
distinct errors rather than one uniform one); in every rejected case the
outcome of `GET /users/me` is independent of the server state, i.e. no
business logic was consulted. -/
theorem c7_guard_rejects_before_handler (s s2 : ServerState) (tok : Option Token)
    (now : Nat) (totp : String → Int → String) (code : String) (step : Int) :
    (tok = none →
      usersMe s tok now = .authErr 401 "Access token required" ∧
      verifyTwoFa totp s tok code step now = .authMissing) ∧
    (∀ t, tok = some t → ¬ (t.sig = true ∧ now < t.exp) →
      usersMe s tok now = .authErr 403 "Invalid or expired token" ∧
      verifyTwoFa totp s tok code step now = .authInvalid) ∧
    ((∀ c, authenticateToken tok now ≠ .ok c) →
      usersMe s tok now = usersMe s2 tok now) := by
  refine ⟨?_, ?_, ?_⟩
  · rintro rfl
    exact ⟨rfl, rfl⟩
  · rintro t rfl hbad
    have hv : jwtVerify t now = none := by
      rw [jwtVerify, if_neg hbad]
    constructor <;> simp [usersMe, verifyTwoFa, authenticateToken, hv]
  · intro h
    cases htok : authenticateToken tok now with
    | missing => simp [usersMe, htok]
    | invalid => simp [usersMe, htok]
    | ok c => exact absurd htok (h c)

/-- C7 witness: a missing token, a badly signed token and an expired token at
concrete inputs, with the state-independence conjunct applied to two
different states. -/
theorem c7_guard_rejects_witness :
    usersMe baseState none 5 = .authErr 401 "Access token required" ∧
    usersMe baseState (some ⟨⟨1, "a@b.c", false⟩, 10, false⟩) 5 =
      .authErr 403 "Invalid or expired token" ∧
    usersMe baseState (some ⟨⟨1, "a@b.c", false⟩, 10, true⟩) 20 =
      usersMe baseStateH2 (some ⟨⟨1, "a@b.c", false⟩, 10, true⟩) 20 := by
  refine ⟨((c7_guard_rejects_before_handler baseState baseState none 5 totpDemo "x" 0).1
            rfl).1,
          ((c7_guard_rejects_before_handler baseState baseState
              (some ⟨⟨1, "a@b.c", false⟩, 10, false⟩) 5 totpDemo "x" 0).2.1 _ rfl
            (by decide)).1,
          (c7_guard_rejects_before_handler baseState baseStateH2
              (some ⟨⟨1, "a@b.c", false⟩, 10, true⟩) 20 totpDemo "x" 0).2.2 ?_⟩
  intro c hc
  simp [authenticateToken, jwtVerify] at hc

/-- Delivery shape of one broadcast: every open client's inbox grows by
exactly the one envelope `{type, data, allUsers}`, and closed clients are
left untouched. -/
theorem broadcastUpdate_delivery (etype : String) (data : Option UserOut)
    (allUsers : List User) (obs : List Observer) :
    List.Forall₂ (fun o o' : Observer =>
        (o.isOpen = true → o'.inbox = o.inbox ++ [⟨etype, data, allUsers⟩]) ∧
        (o.isOpen = false → o' = o))
      obs (broadcastUpdate etype data allUsers obs) := by
  induction obs with
  | nil => exact List.Forall₂.nil
  | cons o tl ih =>
    rw [broadcastUpdate, List.map_cons]
    refine List.Forall₂.cons ⟨?_, ?_⟩ ih
    · intro h; simp [h]
    · intro h; simp [h]

/-- C3 (amended): a create whose email is not taken persists exactly the new
entry at the tail of the registry, answers 201 with the new row, sends every
open observer exactly one `USER_ADDED` envelope whose `allUsers` snapshot
contains the new entry (closed observers receive nothing) — but it appends
no Mutation Log event at all: `logs` is unchanged, because the `POST /users`
handler, unlike update and delete, never inserts into the `logs` table. -/
theorem c3_create_unique_email_behavior (s : ServerState) (n e t : String)
    (h : ∀ u ∈ s.users, u.email ≠ e) :
    (createUser s n e t).2 = .created ⟨s.nextId, n, e, t, none⟩ ∧
    (createUser s n e t).1.users =
      s.users ++ [⟨s.nextId, n, e, t, none, none, none⟩] ∧
    (createUser s n e t).1.logs = s.logs ∧
    (⟨s.nextId, n, e, t, none, none, none⟩ : User) ∈
      (createUser s n e t).1.users ∧
    List.Forall₂ (fun o o' : Observer =>
        (o.isOpen = true → o'.inbox = o.inbox ++
          [⟨"USER_ADDED", some ⟨s.nextId, n, e, t, none⟩,
            s.users ++ [⟨s.nextId, n, e, t, none, none, none⟩]⟩]) ∧
        (o.isOpen = false → o' = o))
      s.observers (createUser s n e t).1.observers := by
  have hneg : ¬ ((s.users.filter (fun u => u.email == e)).length > 0) := by
    intro hpos
    obtain ⟨u, hu⟩ := List.exists_mem_of_ne_nil _ (List.length_pos.mp hpos)
    have hm := List.mem_filter.mp hu
    exact h u hm.1 (by simpa using hm.2)
  refine ⟨?_, ?_, ?_, ?_, ?_⟩
  · simp [createUser, hneg]
  · simp [createUser, hneg]
  · simp [createUser, hneg]
  · simp [createUser, hneg]
  · simp only [createUser, if_neg hneg]
    exact broadcastUpdate_delivery _ _ _ _

/-- C3 witness: at the demo state the unique-email create is persisted,
answers 201, and leaves the mutation log unchanged. -/
theorem c3_create_unique_email_witness :
    (createUser baseState "Carl" "c@b.c" "user").2 =
      .created ⟨3, "Carl", "c@b.c", "user", none⟩ ∧
    (createUser baseState "Carl" "c@b.c" "user").1.logs = baseState.logs := by
  have h := c3_create_unique_email_behavior baseState "Carl" "c@b.c" "user" (by decide)
  exact ⟨h.1, h.2.2.1⟩

/-- C10: a successful update rewrites only the name, email and role columns
of the target row — the stored row keeps its avatar, password hash and
second-factor secret — while the 200 response and the `data` field of the
`USER_UPDATED` envelope report the updated entry with `image = null`
unconditionally, whatever avatar is actually stored. -/
theorem c10_update_frame (s : ServerState) (actor : Option Nat) (id : Nat)
    (n e t : String) (now : Nat)
    (hdup : ∀ u ∈ s.users, ¬(u.email = e ∧ u.id ≠ id))
    (hex : ∃ u ∈ s.users, u.id = id) :
    (updateUser s actor id n e t now).2 = .updated ⟨id, n, e, t, none⟩ ∧
    (updateUser s actor id n e t now).1.users =
      s.users.map (fun u =>
        if u.id = id then { u with name := n, email := e, type := t } else u) ∧
    (∀ u ∈ s.users, u.id = id →
      (⟨u.id, n, e, t, u.image, u.password, u.two_factor_secret⟩ : User) ∈
        (updateUser s actor id n e t now).1.users) ∧
    List.Forall₂ (fun o o' : Observer =>
        (o.isOpen = true → o'.inbox = o.inbox ++
          [⟨"USER_UPDATED", some ⟨id, n, e, t, none⟩,
            (updateUser s actor id n e t now).1.users⟩]) ∧
        (o.isOpen = false → o' = o))
      s.observers (updateUser s actor id n e t now).1.observers := by
  have hneg1 : ¬ ((s.users.filter (fun u => u.email == e && u.id != id)).length > 0) := by
    intro hpos
    obtain ⟨u, hu⟩ := List.exists_mem_of_ne_nil _ (List.length_pos.mp hpos)
    have hm := List.mem_filter.mp hu
    have hb := hm.2
    rw [Bool.and_eq_true] at hb
    exact hdup u hm.1 ⟨by simpa using hb.1, by simpa using hb.2⟩
  have hneg2 : ¬ ((s.users.filter (fun u => u.id == id)).length = 0) := by
    obtain ⟨u, hu, hid⟩ := hex
    have hmem : u ∈ s.users.filter (fun x => x.id == id) :=
      List.mem_filter.mpr ⟨hu, by simp [hid]⟩
    intro h0
    rw [List.length_eq_zero] at h0
    simp [h0] at hmem
  refine ⟨?_, ?_, ?_, ?_⟩
  · simp [updateUser, hneg1, hneg2]
  · simp only [updateUser, if_neg hneg1, if_neg hneg2]
    congr 1
    funext u
    by_cases hid : u.id = id <;> simp [hid]
  · intro u hu hid
    simp only [updateUser, if_neg hneg1, if_neg hneg2]
    have : (⟨u.id, n, e, t, u.image, u.password, u.two_factor_secret⟩ : User) =
        (if u.id == id then { u with name := n, email := e, type := t } else u) := by
      simp [hid]
    rw [this]
    exact List.mem_map_of_mem _ hu
  · simp only [updateUser, if_neg hneg1, if_neg hneg2]
    exact broadcastUpdate_delivery _ _ _ _

/-- C10 witness: updating Ann keeps her stored avatar, hash and secret in the
registry while the response reports `image = null`. -/
theorem c10_update_frame_witness :
    (updateUser baseState (some 9) 1 "Ann2" "a2@b.c" "admin" 50).2 =
      .updated ⟨1, "Ann2", "a2@b.c", "admin", none⟩ ∧
    (⟨1, "Ann2", "a2@b.c", "admin", some "pic.png", some "HASH", some "SEC"⟩ : User) ∈
      (updateUser baseState (some 9) 1 "Ann2" "a2@b.c" "admin" 50).1.users := by
  have h := c10_update_frame baseState (some 9) 1 "Ann2" "a2@b.c" "admin" 50
    (by decide) ⟨annUser, by decide, rfl⟩
  exact ⟨h.1, h.2.2.1 annUser (by decide) rfl⟩

/-- The window-1 check accepts exactly the codes of the steps at distance at
most one from the current step. -/
theorem totpCheck_iff_window (totp : String → Int → String) (secret code : String)
    (step : Int) :
    totpCheck totp secret code step = true ↔
      ∃ d : Int, d.natAbs ≤ 1 ∧ code = totp secret (step + d) := by
  unfold totpCheck
  simp only [Bool.or_eq_true, beq_iff_eq]
  constructor
  · rintro ((h | h) | h)
    · exact ⟨-1, by decide, by rw [h]; congr 1 <;> ring⟩
    · exact ⟨0, by decide, by rw [h]; congr 1 <;> ring⟩
    · exact ⟨1, by decide, h⟩
  · rintro ⟨d, hd, hc⟩
    have hcase : d = -1 ∨ d = 0 ∨ d = 1 := by omega
    rcases hcase with rfl | rfl | rfl
    · left; left; rw [hc]; congr 1 <;> ring
    · left; right; rw [hc]; congr 1 <;> ring
    · right; exact hc

/-- C6: behind a valid unexpired token, second-factor verification accepts
the submitted code exactly when it is the code of some step within ±1 of the
current step of the stored secret; on acceptance the issued token carries the
original token's claims plus the verified flag and the fresh expiry
`now + 3600` — the presented token's own expiry is discarded — and a code
outside the window is answered with the invalid-code error. -/
theorem c6_second_factor_window (totp : String → Int → String) (s : ServerState)
    (t : Token) (code : String) (step : Int) (now : Nat) (u : User) (sec : String)
    (hsig : t.sig = true) (hexp : now < t.exp)
    (hu : s.users.find? (fun x => x.id == t.claims.id) = some u)
    (hsec : u.two_factor_secret = some sec) :
    (verifyTwoFa totp s (some t) code step now =
        .verified ⟨{ t.claims with twoFactorVerified := true }, now + 3600, true⟩ ↔
      ∃ d : Int, d.natAbs ≤ 1 ∧ code = totp sec (step + d)) ∧
    ((¬ ∃ d : Int, d.natAbs ≤ 1 ∧ code = totp sec (step + d)) →
      verifyTwoFa totp s (some t) code step now = .invalidCode) := by
  have hauth : authenticateToken (some t) now = .ok t.claims := by
    simp [authenticateToken, jwtVerify, hsig, hexp]
  have hbody : verifyTwoFa totp s (some t) code step now =
      (if totpCheck totp sec code step then
        .verified (jwtSign { t.claims with twoFactorVerified := true } now 3600)
      else .invalidCode) := by
    simp [verifyTwoFa, hauth, hu, hsec]
  constructor
  · rw [hbody, ← totpCheck_iff_window totp sec code step]
    cases htc : totpCheck totp sec code step with
    | true => simp [jwtSign]
    | false => simp
  · intro hn
    have hfc : totpCheck totp sec code step = false := by
      cases htc : totpCheck totp sec code step with
      | true => exact absurd ((totpCheck_iff_window totp sec code step).mp htc) hn
      | false => rfl
    rw [hbody]
    simp [hfc]

/-- C6 witness: with the demo TOTP generator, Ann's pending token and the
code of the previous step yield the verified token with the fresh 1-hour
expiry, while an out-of-window code is rejected. -/
theorem c6_second_factor_window_witness :
    verifyTwoFa totpDemo baseState (some ⟨⟨1, "a@b.c", false⟩, 1300, true⟩)
        "SEC4" 5 1100 = .verified ⟨⟨1, "a@b.c", true⟩, 4700, true⟩ ∧
    verifyTwoFa totpDemo baseState (some ⟨⟨1, "a@b.c", false⟩, 1300, true⟩)
        "SEC9" 5 1100 = .invalidCode := by
  have hok := c6_second_factor_window totpDemo baseState ⟨⟨1, "a@b.c", false⟩, 1300, true⟩
    "SEC4" 5 1100 annUser "SEC" rfl (by decide) (by decide) rfl
  have hbad := c6_second_factor_window totpDemo baseState ⟨⟨1, "a@b.c", false⟩, 1300, true⟩
    "SEC9" 5 1100 annUser "SEC" rfl (by decide) (by decide) rfl
  refine ⟨hok.1.mpr ⟨-1, by decide, by decide⟩, hbad.2 ?_⟩
  rintro ⟨d, hd, hc⟩
  have hcase : d = -1 ∨ d = 0 ∨ d = 1 := by omega
  rcases hcase with rfl | rfl | rfl <;> exact absurd hc (by decide)

/-! ## Lemmas about the detector's ignore-on-conflict insertion -/

/-- Unfolding of the ignore-on-conflict insertion through `hasFlag`. -/
theorem insertIgnoreMonitored_eq (m : List Flag) (v : Nat) (r : String) (t : Nat) :
    insertIgnoreMonitored m v r t =
      if hasFlag m v then m else m ++ [⟨v, r, t⟩] := rfl

/-- Inserting a flag for `v` leaves `hasFlag` at `uid` true exactly when it
was already true or `v` is `uid`. -/
theorem hasFlag_insertIgnore (m : List Flag) (v uid : Nat) (r : String) (t : Nat) :
    hasFlag (insertIgnoreMonitored m v r t) uid = (hasFlag m uid || v == uid) := by
  by_cases hv : hasFlag m v = true
  · rw [insertIgnoreMonitored_eq, if_pos hv]
    cases hvu : (v == uid) with
    | false => simp
    | true =>
      have hveq : v = uid := by simpa using hvu
      subst hveq
      simp [hv]
  · rw [insertIgnoreMonitored_eq, if_neg hv]
    simp [hasFlag, List.any_append]

/-- An already-flagged actor makes the ignore-on-conflict insertion a no-op. -/
theorem insertIgnore_eq_of_hasFlag (m : List Flag) (v : Nat) (r : String) (t : Nat)
    (h : hasFlag m v = true) : insertIgnoreMonitored m v r t = m := by
  rw [insertIgnoreMonitored_eq, if_pos h]

/-- An actor with no flag has flag count zero. -/
theorem flagCount_eq_zero_of_not_hasFlag (m : List Flag) (uid : Nat)
    (h : hasFlag m uid = false) : flagCount m uid = 0 := by
  induction m with
  | nil => rfl
  | cons f tl ih =>
    rw [hasFlag, List.any_cons, Bool.or_eq_false_iff] at h
    rw [flagCount, List.filter_cons, if_neg (by simp [h.1])]
    exact ih h.2

/-- Effect of one ignore-on-conflict insertion on the flag count of `uid`. -/
theorem flagCount_insertIgnore (m : List Flag) (v uid : Nat) (r : String) (t : Nat) :
    flagCount (insertIgnoreMonitored m v r t) uid =
      flagCount m uid + (if v = uid ∧ hasFlag m v = false then 1 else 0) := by
  by_cases hv : hasFlag m v = true
  · rw [insertIgnore_eq_of_hasFlag m v r t hv]
    simp [hv]
  · have hv0 : hasFlag m v = false := by simpa using hv
    rw [insertIgnoreMonitored_eq, if_neg hv]
    by_cases hvu : v = uid
    · subst hvu
      simp [flagCount, List.filter_append, hv0]
    · simp [flagCount, List.filter_append, hvu, hv0]

/-- Folding the detector's insertions over a list of actors flags exactly the
previously flagged actors and the listed ones. -/
theorem hasFlag_foldl_ins (r : Nat → String) (t : Nat) (l : List Nat) (m : List Flag)
    (uid : Nat) :
    hasFlag (l.foldl (fun acc v => insertIgnoreMonitored acc v (r v) t) m) uid =
      (hasFlag m uid || l.any (fun v => v == uid)) := by
  induction l generalizing m with
  | nil => simp
  | cons v tl ih =>
    rw [List.foldl_cons, List.any_cons, ih, hasFlag_insertIgnore, Bool.or_assoc]

/-- Folding the detector's insertions over a duplicate-free list of actors
adds one flag for `uid` when `uid` is listed and unflagged, and none
otherwise. -/
theorem flagCount_foldl_ins (r : Nat → String) (t : Nat) (l : List Nat) (m : List Flag)
    (uid : Nat) (hl : l.Nodup) :
    flagCount (l.foldl (fun acc v => insertIgnoreMonitored acc v (r v) t) m) uid =
      flagCount m uid + (if uid ∈ l ∧ hasFlag m uid = false then 1 else 0) := by
  induction l generalizing m with
  | nil => simp
  | cons v tl ih =>
    have hnd := List.nodup_cons.mp hl
    rw [List.foldl_cons, ih _ hnd.2, flagCount_insertIgnore, hasFlag_insertIgnore]
    by_cases hvu : v = uid
    · subst hvu
      have hvt : v ∉ tl := hnd.1
      by_cases hm : hasFlag m v = false
      · simp [hm, hvt]
      · have hm' : hasFlag m v = true := by simpa using hm
        simp [hm', hvt]
    · have hbu : (v == uid) = false := by simpa using hvu
      have huv : ¬ uid = v := fun hh => hvu hh.symm
      by_cases hm : hasFlag m uid = false
      · simp [hbu, hm, hvu, huv, List.mem_cons]
      · have hm' : hasFlag m uid = true := by simpa using hm
        simp [hbu, hm', hvu, huv, List.mem_cons]

/-- When every listed actor is already flagged, the detector's insertion fold
is the identity. -/
theorem foldl_ins_eq_of_allFlagged (r : Nat → String) (t : Nat) (l : List Nat)
    (m : List Flag) (h : ∀ v ∈ l, hasFlag m v = true) :
    l.foldl (fun acc v => insertIgnoreMonitored acc v (r v) t) m = m := by
  induction l generalizing m with
  | nil => rfl
  | cons v tl ih =>
    rw [List.foldl_cons, insertIgnore_eq_of_hasFlag m v _ _ (h v (by simp))]
    exact ih m (fun w hw => h w (by simp [hw]))

/-- Any actor with at least one counted event appears among the groups the
detector query can produce. -/
theorem mem_distinctActors_of_actorCount_pos (logs : List LogEntry) (uid now : Nat)
    (h : 0 < actorCount logs uid now) : uid ∈ distinctActors logs := by
  unfold actorCount at h
  obtain ⟨e, he⟩ := List.exists_mem_of_ne_nil _ (List.length_pos.mp h)
  have hm := List.mem_filter.mp he
  have hb := hm.2
  rw [Bool.and_eq_true] at hb
  have huid : e.user_id = some uid := by simpa using hb.1
  unfold distinctActors
  rw [List.mem_dedup]
  exact List.mem_filterMap.mpr ⟨e, hm.1, huid⟩

/-- C8: over any log state, a run of the detector gives a previously
unflagged actor a Monitoring Flag exactly when the actor id is non-zero
(anonymous NULL actors are never counted, zero is excluded explicitly) and
the actor has strictly more than 10 events inside the trailing 2-minute
window; when it does, the run leaves exactly one flag for that actor. -/
theorem c8_detector_flag_characterization (logs : List LogEntry) (m : List Flag)
    (now uid : Nat) (h : hasFlag m uid = false) :
    (hasFlag (detectorRun logs m now) uid = true ↔
      uid ≠ 0 ∧ 10 < actorCount logs uid now) ∧
    (uid ≠ 0 → 10 < actorCount logs uid now →
      flagCount (detectorRun logs m now) uid = 1) := by
  have hmem_l : uid ∈ (distinctActors logs).filter (qualifies logs now) ↔
      (uid ≠ 0 ∧ 10 < actorCount logs uid now) := by
    rw [List.mem_filter]
    constructor
    · rintro ⟨_, hq⟩
      rw [qualifies, Bool.and_eq_true] at hq
      exact ⟨by simpa using hq.1, by simpa using hq.2⟩
    · rintro ⟨h0, hq⟩
      refine ⟨mem_distinctActors_of_actorCount_pos logs uid now ?_, ?_⟩
      · omega
      · rw [qualifies, Bool.and_eq_true]
        exact ⟨by simpa using h0, by simpa using hq⟩
  have hnodup : ((distinctActors logs).filter (qualifies logs now)).Nodup :=
    (List.nodup_dedup _).filter _
  constructor
  · rw [detectorRun, hasFlag_foldl_ins, h, Bool.false_or, List.any_eq_true]
    constructor
    · rintro ⟨v, hv, hveq⟩
      have hveq' : v = uid := by simpa using hveq
      subst hveq'
      exact hmem_l.mp hv
    · intro hq
      exact ⟨uid, hmem_l.mpr hq, by simp⟩
  · intro h0 hq
    rw [detectorRun, flagCount_foldl_ins _ _ _ _ _ hnodup,
      flagCount_eq_zero_of_not_hasFlag m uid h]
    simp [hmem_l.mpr ⟨h0, hq⟩, h]

/-- C8 witness: eleven events by actor 7 inside the window give exactly one
flag on the next run; ten such events give none. -/
theorem c8_detector_flag_witness :
    flagCount (detectorRun logsEleven [] 150) 7 = 1 ∧
    hasFlag (detectorRun logsTen [] 150) 7 = false := by
  have h11 := c8_detector_flag_characterization logsEleven [] 150 7 rfl
  have h10 := c8_detector_flag_characterization logsTen [] 150 7 rfl
  refine ⟨h11.2 (by decide) (by decide), ?_⟩
  cases hb : hasFlag (detectorRun logsTen [] 150) 7 with
  | false => rfl
  | true => exact absurd (h10.1.mp hb).2 (by decide)

/-- C9: with the Mutation Log and the clock unchanged, a second detector run
immediately after a first one changes nothing: every actor the second run
would flag was flagged by the first run, so its ignore-on-conflict insertions
are all no-ops and no duplicate flags appear. -/
theorem c9_detector_idempotent (logs : List LogEntry) (m : List Flag) (now : Nat) :
    detectorRun logs (detectorRun logs m now) now = detectorRun logs m now := by
  rw [detectorRun, detectorRun]
  apply foldl_ins_eq_of_allFlagged
  intro v hv
  rw [hasFlag_foldl_ins]
  have hany : ((distinctActors logs).filter (qualifies logs now)).any
      (fun w => w == v) = true :=
    List.any_eq_true.mpr ⟨v, hv, by simp⟩
  simp [hany]

end MppBackend
